import Mathlib

/-!
Verification development for the iot-project weather ingestion pipeline.

We shallowly embed the ingestion core (src/ingest.py), the MQTT message
arrival path (src/MQTTwrapper.py), the store batch insert
(src/WeatherDatabase.py insert_batch), the station-side batch sender
(src/station_sender.py), and the read-side merge view used by
src/app.py.  Numeric sensor values are modelled as rationals, timestamps
and identifiers as strings, and absent JSON fields as `Option`.
-/

namespace IoT

/-- Python "a or b" on optional strings: `None` and the empty string are
falsy, so they fall through to the second operand. -/
def pyOrS (a b : Option String) : Option String :=
  match a with
  | some s => if s = "" then b else some s
  | none => b

/-- One element of a `measurements` list in an inbound message
(src/ingest.py handle, measurements branch).  The list may also contain
entries that are not dicts, which the code skips. -/
structure Measurement where
  mtype : Option String
  value : Option ℚ
  sid : Option String
deriving Repr, DecidableEq

/-- An item of the `measurements` list: either a dict or something else. -/
inductive MItem
  | mdict (m : Measurement)
  | notDict
deriving Repr, DecidableEq

/-- A decoded inbound MQTT message as seen by src/ingest.py handle.
`measurements = some l` models a message whose "measurements" key is
present and holds a list; any field that may be missing is an `Option`. -/
structure Msg where
  timestamp : Option String
  station_id : Option String
  measurements : Option (List MItem)
  temperature : Option ℚ
  temperature_sid : Option String
  humidity : Option ℚ
  humidity_sid : Option String
  sid : Option String
deriving Repr, DecidableEq

/-- A row of the staging buffer in src/ingest.py.  The measurements
branch appends per-metric rows (`mrow`, with `measurement_type` set);
the flat branch appends one combined row (`flat`, with
`measurement_type = None`, split per metric only at flush time). -/
inductive BufRow
  | mrow (station_id : Option String) (mtype : String) (value : Option ℚ)
      (sid : Option String) (timestamp : Option String)
  | flat (station_id : Option String) (temperature : Option ℚ)
      (temperature_sid : Option String) (humidity : Option ℚ)
      (humidity_sid : Option String) (timestamp : Option String)
deriving Repr, DecidableEq

/-- The rows built by the measurements branch of handle: entries that are
not dicts or whose type is neither "temperature" nor "humidity" are
skipped; `sensor_id` falls back to the station id via Python `or`. -/
def measurementRows (station_id : Option String) (ts : Option String) :
    List MItem → List BufRow
  | [] => []
  | MItem.notDict :: rest => measurementRows station_id ts rest
  | MItem.mdict m :: rest =>
      if m.mtype = some "temperature" ∨ m.mtype = some "humidity" then
        BufRow.mrow station_id (m.mtype.getD "") m.value
            (pyOrS m.sid station_id) ts :: measurementRows station_id ts rest
      else
        measurementRows station_id ts rest

/-- src/ingest.py handle: the message-arrival callback.  Returns the new
buffer contents (append happens under the buffer lock). -/
def handle (msg : Msg) (buffer : List BufRow) : List BufRow :=
  match msg.measurements with
  | some items => buffer ++ measurementRows msg.station_id msg.timestamp items
  | none =>
      buffer ++ [BufRow.flat msg.station_id msg.temperature
        (pyOrS msg.temperature_sid (pyOrS msg.sid msg.station_id))
        msg.humidity
        (pyOrS msg.humidity_sid (pyOrS msg.sid msg.station_id))
        msg.timestamp]

/-- A per-metric tuple handed to the bulk-insert calls at flush time
(src/ingest.py main, flush body). -/
structure Tuple where
  station_id : Option String
  sid : Option String
  value : Option ℚ
  timestamp : Option String
deriving Repr, DecidableEq

/-- src/ingest.py main, flush body: partition a drained batch into the
temperature and humidity sub-batches.  `mrow` rows go by their
`measurement_type`; `flat` rows contribute one tuple per metric whose
value is not None. -/
def splitBatch : List BufRow → List Tuple × List Tuple
  | [] => ([], [])
  | r :: rest =>
      let (ts_, hs_) := splitBatch rest
      match r with
      | BufRow.mrow station mtype v sid ts =>
          if mtype = "temperature" then
            (⟨station, sid, v, ts⟩ :: ts_, hs_)
          else if mtype = "humidity" then
            (ts_, ⟨station, sid, v, ts⟩ :: hs_)
          else (ts_, hs_)
      | BufRow.flat station tv tsid hv hsid ts =>
          let ts1 := if tv ≠ none then (⟨station, tsid, tv, ts⟩ : Tuple) :: ts_ else ts_
          let hs1 := if hv ≠ none then (⟨station, hsid, hv, ts⟩ : Tuple) :: hs_ else hs_
          (ts1, hs1)

/-- Ingestion configuration: INGEST_FLUSH_BATCH is parsed with int() and
INGEST_FLUSH_INTERVAL with float(); both may be zero or negative. -/
structure Cfg where
  flush_batch : ℤ
  flush_every_s : ℚ
deriving Repr, DecidableEq

/-- src/ingest.py main, poll tick: decide whether to flush now.  Mirrors
the if / elif chain on the buffer length, the disabled-interval case and
the elapsed-time case. -/
def flushNow (cfg : Cfg) (buffer : List BufRow) (now last_flush : ℚ) : Bool :=
  if (buffer.length : ℤ) ≥ cfg.flush_batch then true
  else if cfg.flush_every_s ≤ 0 ∧ buffer ≠ [] then true
  else if cfg.flush_every_s > 0 ∧ now - last_flush ≥ cfg.flush_every_s ∧ buffer ≠ [] then true
  else false

/-- An atomic operation on the staging buffer.  Both operations run under
the single buffer lock: handle appends (buffer.extend / buffer.append)
and the flush path drains (batch = buffer[:] then buffer.clear()), so a
concurrent execution linearizes to a sequence of these operations. -/
inductive BufOp
  | append (rows : List BufRow)
  | drain
deriving Repr, DecidableEq

/-- Effect of one atomic buffer operation: the new buffer, plus the batch
returned when the operation was a drain. -/
def applyOp : BufOp → List BufRow → List BufRow × Option (List BufRow)
  | BufOp.append rows, buf => (buf ++ rows, none)
  | BufOp.drain, buf => ([], some buf)

/-- Run a linearized sequence of buffer operations from an initial buffer:
final buffer contents and the list of drained batches, in order. -/
def runOps : List BufOp → List BufRow → List BufRow × List (List BufRow)
  | [], buf => (buf, [])
  | op :: rest, buf =>
      let step := applyOp op buf
      let tail := runOps rest step.1
      (tail.1, match step.2 with
        | some b => b :: tail.2
        | none => tail.2)

/-- All rows appended by a sequence of buffer operations, in order. -/
def appendedRows : List BufOp → List BufRow
  | [] => []
  | BufOp.append rows :: rest => rows ++ appendedRows rest
  | BufOp.drain :: rest => appendedRows rest

/-- src/ingest.py main, shutdown path: on KeyboardInterrupt the loop
body is abandoned; the finally block only calls rx.disconnect().  The
batches flushed by the shutdown path are therefore none. -/
def shutdownFlushBatches (_buffer : List BufRow) : List (List Tuple) := []

/-- src/ingest.py main, shutdown path: the buffer is not touched by the
except / finally blocks, so whatever it held is simply abandoned. -/
def bufferAtExit (buffer : List BufRow) : List BufRow := buffer

/-- The per-kind store contents: the temperature series and the humidity
series of persisted tuples. -/
structure Store where
  temps : List Tuple
  hums : List Tuple
deriving Repr, DecidableEq

/-- Modelled from the spec: `WeatherDatabase.insert_temps_bulk` is called
by src/ingest.py and src/live_sensor_simulation.py but is absent from the
src/ snapshot of WeatherDatabase.py.  Spec section 6 gives its contract:
`bulk_insert(kind, rows) -> inserted_count`, callable per metric kind
independently, each call on its own fresh connection (spec section 9).
`fail` injects a store failure of this one call: the sub-batch is then
lost and reported as zero inserted (spec section 7, WriteFailure). -/
def insert_temps_bulk (fail : Bool) (rows : List Tuple) (st : Store) :
    ℕ × Store :=
  if fail then (0, st) else (rows.length, { st with temps := st.temps ++ rows })

/-- Modelled from the spec: `WeatherDatabase.insert_hums_bulk`, the
humidity counterpart of `insert_temps_bulk`, likewise absent from src/;
same per-kind independent contract. -/
def insert_hums_bulk (fail : Bool) (rows : List Tuple) (st : Store) :
    ℕ × Store :=
  if fail then (0, st) else (rows.length, { st with hums := st.hums ++ rows })

/-- Result of one flush write: the two per-kind inserted counts reported
back to the ingest loop and the resulting store. -/
structure FlushResult where
  count_t : ℕ
  count_h : ℕ
  store : Store
deriving Repr, DecidableEq

/-- src/ingest.py main, flush body after the split: the two bulk-insert
calls, issued one after the other; `failT` / `failH` inject a failure of
the temperature or humidity call. -/
def flushWrite (failT failH : Bool) (batch : List BufRow) (st : Store) :
    FlushResult :=
  let parts := splitBatch batch
  let rt := insert_temps_bulk failT parts.1 st
  let rh := insert_hums_bulk failH parts.2 rt.2
  ⟨rt.1, rh.1, rh.2⟩

/-- An inbound MQTT payload: either bytes that fail JSON decoding, or a
decoded message object. -/
inductive Payload
  | malformed
  | ok (msg : Msg)
deriving Repr, DecidableEq

/-- src/MQTTwrapper.py MQTTReceiver._internal_on_message feeding
src/ingest.py handle: a JSONDecodeError is caught and logged and the
callback is never invoked, so the buffer is unchanged; a decoded message
is handed to handle.  Both except blocks swallow the error, so this
total function is the whole effect on the ingestion state. -/
def internalOnMessage (p : Payload) (buffer : List BufRow) : List BufRow :=
  match p with
  | Payload.malformed => buffer
  | Payload.ok msg => handle msg buffer

/-- A station-side sensor reading as queued by
src/station_sender.py (_take_readings). -/
structure Reading where
  sid : Option String
  sensor_type : Option String
  temperature : Option ℚ
  humidity : Option ℚ
  timestamp : Option String
deriving Repr, DecidableEq

/-- Station sender state: the pending reading queue (FIFO) and the count
of batches sent. -/
structure SenderState where
  queue : List Reading
  batches_sent : ℕ
deriving Repr, DecidableEq

/-- src/station_sender.py MeasurementSender._send_batch: drain the whole
queue in FIFO order; an empty drain sends nothing; otherwise publish the
batch — `sendOk` is the boolean returned by MQTTSender.send_message — and
on failure put every reading back on the queue in order.  Returns the new
state and the batch actually delivered (none when nothing was sent or the
send failed). -/
def sendBatch (sendOk : Bool) (st : SenderState) :
    SenderState × Option (List Reading) :=
  let readings := st.queue
  if readings = [] then (st, none)
  else if sendOk then
    ({ queue := [], batches_sent := st.batches_sent + 1 }, some readings)
  else
    ({ queue := readings, batches_sent := st.batches_sent }, none)

/-- A row of the ds18b20_readings table (synthetic id omitted). -/
structure DsRow where
  sid : String
  temperature : ℚ
  timestamp : String
deriving Repr, DecidableEq

/-- A row of the bme280_readings table (synthetic id omitted). -/
structure BmeRow where
  sid : String
  temperature : Option ℚ
  humidity : Option ℚ
  timestamp : String
deriving Repr, DecidableEq

/-- A reading dict passed to WeatherDatabase.insert_batch (the batch
wrapper shape forwarded by CentralReceiver._process_batch). -/
structure BatchReading where
  sid : Option String
  sensor_type : Option String
  timestamp : Option String
  temperature : Option ℚ
  humidity : Option ℚ
deriving Repr, DecidableEq

/-- src/WeatherDatabase.py insert_batch, success path: walk the readings;
"ds18b20" rows insert into ds18b20_readings only when temperature is not
None; "bme280" rows always insert (possibly with NULL values); any other
sensor_type is skipped.  Missing sensor_id defaults to "unknown", missing
timestamp to the current time `now`.  Returns the inserted rows per table
and the two counts. -/
def insert_batch (now : String) :
    List BatchReading → List DsRow × List BmeRow × ℕ × ℕ
  | [] => ([], [], 0, 0)
  | r :: rest =>
      let tail := insert_batch now rest
      let sid := r.sid.getD "unknown"
      let stype := r.sensor_type.getD "unknown"
      let ts := r.timestamp.getD now
      if stype = "ds18b20" then
        match r.temperature with
        | some t => (⟨sid, t, ts⟩ :: tail.1, tail.2.1, tail.2.2.1 + 1, tail.2.2.2)
        | none => tail
      else if stype = "bme280" then
        (tail.1, ⟨sid, r.temperature, r.humidity, ts⟩ :: tail.2.1,
          tail.2.2.1, tail.2.2.2 + 1)
      else tail

/-- A stored per-metric measurement row as read back from the store
(spec section 3, Stored Measurement row). -/
structure StoredRow where
  station_id : String
  sid : String
  value : ℚ
  timestamp : String
deriving Repr, DecidableEq

/-- The read-side merged sample (spec section 3, Merged Sample). -/
structure MergedSample where
  station_id : String
  timestamp : String
  temperature : Option ℚ
  temperature_sid : Option String
  humidity : Option ℚ
  humidity_sid : Option String
deriving Repr, DecidableEq

/-- The join key of the merge view: `(station_id, timestamp)`. -/
abbrev SKey := String × String

/-- Join key of a stored row. -/
def rowKey (r : StoredRow) : SKey := (r.station_id, r.timestamp)

/-- Station filter and inclusive time-range filter on a stored row
(spec section 4.5: inclusive bounds when supplied, one-sided or absent
otherwise). -/
def keepRow (station start_t end_t : Option String) (r : StoredRow) : Bool :=
  (match station with
    | some s => r.station_id = s
    | none => true) &&
  (match start_t with
    | some a => decide (a ≤ r.timestamp)
    | none => true) &&
  (match end_t with
    | some b => decide (r.timestamp ≤ b)
    | none => true)

/-- Structural lexicographic comparison of character lists (Python
string comparison by code points); structural so that concrete instances
evaluate. -/
def strLeB : List Char → List Char → Bool
  | [], _ => true
  | _ :: _, [] => false
  | c :: cs, d :: ds =>
      if c < d then true else if d < c then false else strLeB cs ds

/-- Lexicographic string comparison used to order timestamps (agrees
with the standard order on String, see tsLe_iff_le). -/
def tsLe (a b : String) : Bool := strLeB a.data b.data

/-- Insert a key into a list sorted ascending by timestamp. -/
def insertKey (k : SKey) : List SKey → List SKey
  | [] => [k]
  | k2 :: rest =>
      if tsLe k.2 k2.2 then k :: k2 :: rest else k2 :: insertKey k rest

/-- Insertion sort of join keys ascending by timestamp. -/
def sortKeys : List SKey → List SKey
  | [] => []
  | k :: rest => insertKey k (sortKeys rest)

/-- The merged sample at one join key: the first matching row of each
filtered series supplies that metric's value and sensor id; a missing
side stays null. -/
def mergeAt (tf hf : List StoredRow) (k : SKey) : MergedSample :=
  { station_id := k.1, timestamp := k.2,
    temperature := (tf.find? (fun r => rowKey r = k)).map (fun r => r.value),
    temperature_sid := (tf.find? (fun r => rowKey r = k)).map (fun r => r.sid),
    humidity := (hf.find? (fun r => rowKey r = k)).map (fun r => r.value),
    humidity_sid := (hf.find? (fun r => rowKey r = k)).map (fun r => r.sid) }

/-- Modelled from the spec: `WeatherDatabase.get_readings` is called by
src/app.py api_readings but is absent from the src/ snapshot of
WeatherDatabase.py.  Spec sections 4.5 and 6 give its contract: given the
temperature and humidity series, an optional station filter and optional
inclusive timestamp bounds, return the full outer join of the two series
on `(station_id, timestamp)`, ordered ascending by timestamp, with the
absent side of the join null (src/app.py then sorts by timestamp and
shapes the rows, which preserves this form). -/
def get_readings (temps hums : List StoredRow)
    (station start_t end_t : Option String) : List MergedSample :=
  (sortKeys (((temps.filter (keepRow station start_t end_t) ++
      hums.filter (keepRow station start_t end_t)).map rowKey).dedup)).map
    (mergeAt (temps.filter (keepRow station start_t end_t))
      (hums.filter (keepRow station start_t end_t)))

/-- Whether a buffered row carries at least one metric value. -/
def rowHasValue : BufRow → Bool
  | BufRow.mrow _ _ v _ _ => v.isSome
  | BufRow.flat _ tv _ hv _ _ => tv.isSome || hv.isSome

/-- A concrete drained batch of 3 temperature rows and 2 humidity rows
(the example of the partitioned-write property). -/
def c1batch : List BufRow :=
  [BufRow.mrow (some "A") "temperature" (some 20) (some "s1") (some "t"),
   BufRow.mrow (some "A") "temperature" (some 21) (some "s1") (some "t"),
   BufRow.mrow (some "A") "temperature" (some 22) (some "s1") (some "t"),
   BufRow.mrow (some "A") "humidity" (some 50) (some "s2") (some "t"),
   BufRow.mrow (some "A") "humidity" (some 51) (some "s2") (some "t")]

/-- A concrete staging buffer holding 7 pending tuples (the example of
the shutdown-drain property). -/
def c2buf : List BufRow :=
  [BufRow.mrow (some "s") "temperature" (some 1) (some "s") (some "t"),
   BufRow.mrow (some "s") "temperature" (some 2) (some "s") (some "t"),
   BufRow.mrow (some "s") "temperature" (some 3) (some "s") (some "t"),
   BufRow.mrow (some "s") "temperature" (some 4) (some "s") (some "t"),
   BufRow.mrow (some "s") "humidity" (some 5) (some "s") (some "t"),
   BufRow.mrow (some "s") "humidity" (some 6) (some "s") (some "t"),
   BufRow.mrow (some "s") "humidity" (some 7) (some "s") (some "t")]

/-- A concrete inbound message whose single measurement has no value. -/
def cMsg5 : Msg :=
  ⟨some "t", some "s",
    some [MItem.mdict ⟨some "temperature", none, none⟩],
    none, none, none, none, none⟩

/-- A concrete inbound message that is valid JSON but has no station id
(flat shape with a temperature). -/
def cMsg8 : Msg :=
  ⟨some "t", none, none, some 20, none, none, none, none⟩

/-- Temperature series of the merge-view example: station A at t1, t2. -/
def exTemps : List StoredRow :=
  [⟨"A", "ta", 20, "t1"⟩, ⟨"A", "tb", 21, "t2"⟩]

/-- Humidity series of the merge-view example: station A at t1, t3. -/
def exHums : List StoredRow :=
  [⟨"A", "ha", 50, "t1"⟩, ⟨"A", "hc", 51, "t3"⟩]

/-- C3: on every poll tick a flush occurs iff the pending size reaches
the batch-size, or the interval is zero/disabled and the buffer is
non-empty, or the interval is positive, elapsed time since the last
flush reaches it and the buffer is non-empty; and with batch-size ≥ 1 an
empty buffer never flushes. -/
theorem flush_trigger_iff (cfg : Cfg) (buffer : List BufRow)
    (now last_flush : ℚ) :
    (flushNow cfg buffer now last_flush = true ↔
      ((buffer.length : ℤ) ≥ cfg.flush_batch ∨
        (cfg.flush_every_s ≤ 0 ∧ buffer ≠ []) ∨
        (cfg.flush_every_s > 0 ∧ now - last_flush ≥ cfg.flush_every_s ∧
          buffer ≠ []))) ∧
    (1 ≤ cfg.flush_batch → buffer = [] →
      flushNow cfg buffer now last_flush = false) := by
  constructor
  · unfold flushNow
    split_ifs with h1 h2 h3
    · exact ⟨fun _ => Or.inl h1, fun _ => rfl⟩
    · exact ⟨fun _ => Or.inr (Or.inl h2), fun _ => rfl⟩
    · exact ⟨fun _ => Or.inr (Or.inr h3), fun _ => rfl⟩
    · constructor
      · intro h
        exact absurd h (by simp)
      · rintro (h | h | h)
        · exact absurd h h1
        · exact absurd h h2
        · exact absurd h h3
  · intro hb he
    subst he
    unfold flushNow
    split_ifs with h1 h2 h3
    · simp at h1
      omega
    · exact absurd rfl h2.2
    · exact absurd rfl h3.2.2
    · rfl

/-- Witness for C3 at a concrete configuration: batch-size 5, interval
60 s, empty buffer, no flush. -/
theorem flush_trigger_iff_witness :
    flushNow ⟨5, 60⟩ [] 100 0 = false :=
  (flush_trigger_iff ⟨5, 60⟩ [] 100 0).2 (by decide) rfl

/-- N single-row appends followed by one drain produce exactly one
drained batch holding all N rows, and an empty buffer. -/
lemma runOps_appends_then_drain (rows : List BufRow) (buf0 : List BufRow) :
    (runOps (rows.map (fun r => BufOp.append [r]) ++ [BufOp.drain]) buf0).2 =
      [buf0 ++ rows] ∧
    (runOps (rows.map (fun r => BufOp.append [r]) ++ [BufOp.drain]) buf0).1 =
      [] := by
  induction rows generalizing buf0 with
  | nil => simp [runOps, applyOp]
  | cons r rest ih =>
      simpa [runOps, applyOp] using ih (buf0 ++ [r])

/-- C4: for every linearized sequence of appends and drains, the drained
batches followed by the remaining buffer are exactly the initial buffer
followed by all appended rows (so no tuple is both drained and left
behind and none is drained twice); a drain atomically returns the whole
pending buffer and leaves it empty (no partial drains); and N appends of
one tuple each followed by one drain yield a single drained batch of
exactly those N tuples. -/
theorem buffer_atomic_drains (ops : List BufOp) (buf0 : List BufRow) :
    (runOps ops buf0).2.flatten ++ (runOps ops buf0).1 =
      buf0 ++ appendedRows ops ∧
    (∀ buf : List BufRow, applyOp BufOp.drain buf = ([], some buf)) ∧
    (∀ rows : List BufRow,
      (runOps (rows.map (fun r => BufOp.append [r]) ++ [BufOp.drain]) []).2 =
        [rows]) := by
  refine ⟨?_, fun _ => rfl, fun rows => by
    simpa using (runOps_appends_then_drain rows []).1⟩
  induction ops generalizing buf0 with
  | nil => simp [runOps, appendedRows]
  | cons op rest ih =>
      cases op with
      | append rows =>
          simpa [runOps, applyOp, appendedRows] using ih (buf0 ++ rows)
      | drain =>
          simpa [runOps, applyOp, appendedRows] using ih []

/-- C9: a failed station-side batch send re-queues every reading of the
failed batch (the queue is exactly what it was before the drain), and
delivers nothing; a successful send delivers the whole queue (when
non-empty) and empties it. -/
theorem send_batch_requeues_on_failure (st : SenderState) :
    (sendBatch false st).1.queue = st.queue ∧
    (sendBatch false st).2 = none ∧
    (sendBatch true st).2 = (if st.queue = [] then none else some st.queue) ∧
    (sendBatch true st).1.queue = [] := by
  unfold sendBatch
  split_ifs with h <;> simp_all

/-- The ds18b20 count returned by insert_batch counts exactly the
"ds18b20" rows carrying a temperature. -/
lemma insert_batch_count_ds (now : String) (readings : List BatchReading) :
    (insert_batch now readings).2.2.1 =
      readings.countP (fun r =>
        r.sensor_type.getD "unknown" = "ds18b20" && r.temperature.isSome) := by
  induction readings with
  | nil => simp [insert_batch]
  | cons r rest ih =>
      by_cases hds : r.sensor_type.getD "unknown" = "ds18b20"
      · have hbme : ¬ r.sensor_type.getD "unknown" = "bme280" := by
          rw [hds]; decide
        cases ht : r.temperature with
        | none => simp [insert_batch, hds, hbme, ht, List.countP_cons, ih]
        | some t => simp [insert_batch, hds, hbme, ht, List.countP_cons, ih]
      · by_cases hbme : r.sensor_type.getD "unknown" = "bme280" <;>
          simp [insert_batch, hds, hbme, List.countP_cons, ih]

/-- The bme280 count returned by insert_batch counts all "bme280" rows,
with no condition on the values. -/
lemma insert_batch_count_bme (now : String) (readings : List BatchReading) :
    (insert_batch now readings).2.2.2 =
      readings.countP (fun r => r.sensor_type.getD "unknown" = "bme280") := by
  induction readings with
  | nil => simp [insert_batch]
  | cons r rest ih =>
      by_cases hds : r.sensor_type.getD "unknown" = "ds18b20"
      · have hbme : ¬ r.sensor_type.getD "unknown" = "bme280" := by
          rw [hds]; decide
        cases ht : r.temperature with
        | none => simp [insert_batch, hds, hbme, ht, List.countP_cons, ih]
        | some t => simp [insert_batch, hds, hbme, ht, List.countP_cons, ih]
      · by_cases hbme : r.sensor_type.getD "unknown" = "bme280" <;>
          simp [insert_batch, hds, hbme, List.countP_cons, ih]

/-- The ds18b20 rows inserted by insert_batch are exactly the "ds18b20"
readings carrying a temperature, in order. -/
lemma insert_batch_rows_ds (now : String) (readings : List BatchReading) :
    (insert_batch now readings).1 =
      readings.filterMap (fun r =>
        if r.sensor_type.getD "unknown" = "ds18b20" then
          r.temperature.map (fun t =>
            (⟨r.sid.getD "unknown", t, r.timestamp.getD now⟩ : DsRow))
        else none) := by
  induction readings with
  | nil => simp [insert_batch]
  | cons r rest ih =>
      by_cases hds : r.sensor_type.getD "unknown" = "ds18b20"
      · have hbme : ¬ r.sensor_type.getD "unknown" = "bme280" := by
          rw [hds]; decide
        cases ht : r.temperature with
        | none => simp [insert_batch, hds, hbme, ht, ih]
        | some t => simp [insert_batch, hds, hbme, ht, ih]
      · by_cases hbme : r.sensor_type.getD "unknown" = "bme280" <;>
          simp [insert_batch, hds, hbme, ih]

/-- The bme280 rows inserted by insert_batch are exactly the "bme280"
readings, values stored as given (possibly NULL), in order. -/
lemma insert_batch_rows_bme (now : String) (readings : List BatchReading) :
    (insert_batch now readings).2.1 =
      readings.filterMap (fun r =>
        if r.sensor_type.getD "unknown" = "bme280" then
          some (⟨r.sid.getD "unknown", r.temperature, r.humidity,
            r.timestamp.getD now⟩ : BmeRow)
        else none) := by
  induction readings with
  | nil => simp [insert_batch]
  | cons r rest ih =>
      by_cases hds : r.sensor_type.getD "unknown" = "ds18b20"
      · have hbme : ¬ r.sensor_type.getD "unknown" = "bme280" := by
          rw [hds]; decide
        cases ht : r.temperature with
        | none => simp [insert_batch, hds, hbme, ht, ih]
        | some t => simp [insert_batch, hds, hbme, ht, ih]
      · by_cases hbme : r.sensor_type.getD "unknown" = "bme280" <;>
          simp [insert_batch, hds, hbme, ih]

/-- The returned counts equal the numbers of rows actually inserted into
each table. -/
lemma insert_batch_counts_eq_lengths (now : String)
    (readings : List BatchReading) :
    (insert_batch now readings).2.2.1 = (insert_batch now readings).1.length ∧
    (insert_batch now readings).2.2.2 = (insert_batch now readings).2.1.length := by
  induction readings with
  | nil => simp [insert_batch]
  | cons r rest ih =>
      by_cases hds : r.sensor_type.getD "unknown" = "ds18b20"
      · have hbme : ¬ r.sensor_type.getD "unknown" = "bme280" := by
          rw [hds]; decide
        cases ht : r.temperature with
        | none => simpa [insert_batch, hds, hbme, ht] using ih
        | some t => simpa [insert_batch, hds, hbme, ht] using ih
      · by_cases hbme : r.sensor_type.getD "unknown" = "bme280" <;>
          simpa [insert_batch, hds, hbme] using ih

/-- C10: insert_batch counts exactly the "ds18b20" rows that carry a
temperature and all the "bme280" rows (even with both values absent,
stored as NULLs); rows of any other sensor_type are skipped and the
returned counts equal the numbers of rows actually inserted per table. -/
theorem insert_batch_skips_and_counts (now : String)
    (readings : List BatchReading) :
    (insert_batch now readings).2.2.1 =
      readings.countP (fun r =>
        r.sensor_type.getD "unknown" = "ds18b20" && r.temperature.isSome) ∧
    (insert_batch now readings).2.2.2 =
      readings.countP (fun r => r.sensor_type.getD "unknown" = "bme280") ∧
    (insert_batch now readings).1 =
      readings.filterMap (fun r =>
        if r.sensor_type.getD "unknown" = "ds18b20" then
          r.temperature.map (fun t =>
            (⟨r.sid.getD "unknown", t, r.timestamp.getD now⟩ : DsRow))
        else none) ∧
    (insert_batch now readings).2.1 =
      readings.filterMap (fun r =>
        if r.sensor_type.getD "unknown" = "bme280" then
          some (⟨r.sid.getD "unknown", r.temperature, r.humidity,
            r.timestamp.getD now⟩ : BmeRow)
        else none) ∧
    (insert_batch now readings).2.2.1 = (insert_batch now readings).1.length ∧
    (insert_batch now readings).2.2.2 = (insert_batch now readings).2.1.length :=
  ⟨insert_batch_count_ds now readings, insert_batch_count_bme now readings,
    insert_batch_rows_ds now readings, insert_batch_rows_bme now readings,
    (insert_batch_counts_eq_lengths now readings).1,
    (insert_batch_counts_eq_lengths now readings).2⟩

/-- C1: each metric kind's bulk insert is its own failure unit — with the
temperature call succeeding, the reported temperature count is the size
of the temperature sub-batch and those rows are persisted whatever the
humidity call does (and symmetrically); a failed humidity call reports 0
and persists nothing; concretely, 3 temperature rows and 2 humidity rows
with the humidity write failing yield counts (3, 0) with the 3
temperature rows persisted. -/
theorem partitioned_write_independence (batch : List BufRow) (st : Store)
    (failT failH : Bool) :
    (flushWrite false failH batch st).count_t = (splitBatch batch).1.length ∧
    (flushWrite false failH batch st).store.temps =
      st.temps ++ (splitBatch batch).1 ∧
    (flushWrite failT false batch st).count_h = (splitBatch batch).2.length ∧
    (flushWrite failT false batch st).store.hums =
      st.hums ++ (splitBatch batch).2 ∧
    (flushWrite false true batch st).count_h = 0 ∧
    (flushWrite false true batch st).store.hums = st.hums ∧
    (flushWrite false true c1batch ⟨[], []⟩).count_t = 3 ∧
    (flushWrite false true c1batch ⟨[], []⟩).count_h = 0 ∧
    (flushWrite false true c1batch ⟨[], []⟩).store.temps.length = 3 ∧
    (flushWrite false true c1batch ⟨[], []⟩).store.hums = [] := by
  refine ⟨?_, ?_, ?_, ?_, ?_, ?_, by decide, by decide, by decide, by decide⟩ <;>
    cases failT <;> cases failH <;>
      simp [flushWrite, insert_temps_bulk, insert_hums_bulk]

/-- C2 counterexample: with 7 tuples pending, the shutdown path of the
ingest loop (the KeyboardInterrupt / finally blocks) performs no final
write at all — not one final write of all 7 tuples — and the buffer is
left non-empty. -/
theorem shutdown_no_final_flush_cex :
    shutdownFlushBatches c2buf = [] ∧ bufferAtExit c2buf ≠ [] := by
  exact ⟨rfl, by decide⟩

/-- C2 amended: on shutdown the ingest loop performs no final flush
whatsoever: the shutdown path hands no batch to the batch writer and
abandons the buffer contents as they are, so pending tuples are lost. -/
theorem shutdown_abandons_buffer (buffer : List BufRow) :
    shutdownFlushBatches buffer = [] ∧ bufferAtExit buffer = buffer :=
  ⟨rfl, rfl⟩

/-- C5 counterexample: a measurements-shape message whose reading has no
value is nevertheless buffered, so the buffer holds a tuple carrying no
value. -/
theorem buffered_row_without_value_cex :
    handle cMsg5 [] =
      [BufRow.mrow (some "s") "temperature" none (some "s") (some "t")] ∧
    (handle cMsg5 []).all rowHasValue = false := by
  exact ⟨by decide, by decide⟩

/-- C5 amended: absent-value readings are not dropped before buffering —
a measurements-shape reading is buffered with whatever value it carries,
None included; only flat-shape rows have their absent metrics excluded,
and that happens at flush-time splitting, not before buffering. -/
theorem absent_values_buffered (station ts : Option String)
    (m : Measurement)
    (h : m.mtype = some "temperature" ∨ m.mtype = some "humidity") :
    measurementRows station ts [MItem.mdict m] =
      [BufRow.mrow station (m.mtype.getD "") m.value (pyOrS m.sid station) ts] ∧
    (∀ (tv hv : Option ℚ) (tsid hsid : Option String),
      splitBatch [BufRow.flat station tv tsid hv hsid ts] =
        ((if tv ≠ none then [⟨station, tsid, tv, ts⟩] else []),
          (if hv ≠ none then [⟨station, hsid, hv, ts⟩] else []))) := by
  constructor
  · simp [measurementRows, h]
  · intro tv hv tsid hsid
    simp [splitBatch]

/-- Witness for C5 amended: a valueless temperature measurement is
buffered with value None, and a flat row with no metric values produces
no tuples at flush time. -/
theorem absent_values_buffered_witness :
    measurementRows (some "s") (some "t")
        [MItem.mdict ⟨some "temperature", none, none⟩] =
      [BufRow.mrow (some "s") "temperature" none (some "s") (some "t")] ∧
    splitBatch [BufRow.flat (some "s") none none none none (some "t")] =
      ([], []) := by
  have h := absent_values_buffered (some "s") (some "t")
    ⟨some "temperature", none, none⟩ (Or.inl rfl)
  exact ⟨by simpa using h.1, by simpa using h.2 none none none none⟩

/-- C6 counterexample: in the batch-wrapper shape, a reading with no
sensor_id is stored with the literal sensor id "unknown", not the
station identifier (e.g. not "station_1"). -/
theorem batch_wrapper_sid_unknown_cex :
    (insert_batch "now"
        [⟨none, some "bme280", some "t", none, none⟩]).2.1 =
      [⟨"unknown", none, none, "t"⟩] ∧
    ("unknown" : String) ≠ "station_1" := by
  exact ⟨by decide, by decide⟩

/-- C6 amended: the default-to-station sensor-id fallback holds for the
measurements shape and the flat shape in the ingest path, but the
batch-wrapper path (insert_batch) defaults a missing sensor_id to the
literal "unknown" instead of the station identifier. -/
theorem default_sid_fallback (station : String) (ts : Option String)
    (mtype : Option String) (v : Option ℚ)
    (h : mtype = some "temperature" ∨ mtype = some "humidity")
    (msg : Msg) (buffer : List BufRow) (now : String) (r : BatchReading)
    (hm : msg.measurements = none) (hsid1 : msg.temperature_sid = none)
    (hsid2 : msg.humidity_sid = none) (hsid3 : msg.sid = none)
    (hst : msg.station_id = some station)
    (hr : r.sid = none) (hrt : r.sensor_type = some "bme280") :
    measurementRows (some station) ts [MItem.mdict ⟨mtype, v, none⟩] =
      [BufRow.mrow (some station) (mtype.getD "") v (some station) ts] ∧
    handle msg buffer = buffer ++
      [BufRow.flat (some station) msg.temperature (some station)
        msg.humidity (some station) msg.timestamp] ∧
    (insert_batch now [r]).2.1 =
      [⟨"unknown", r.temperature, r.humidity, r.timestamp.getD now⟩] := by
  refine ⟨?_, ?_, ?_⟩
  · simp [measurementRows, h, pyOrS]
  · simp [handle, hm, hsid1, hsid2, hsid3, hst, pyOrS]
  · simp [insert_batch, hr, hrt]

/-- Witness for C6 amended at concrete inputs: station "st1" becomes the
sensor id in both ingest shapes, while the batch-wrapper reading gets
"unknown". -/
theorem default_sid_fallback_witness :
    measurementRows (some "st1") (some "t")
        [MItem.mdict ⟨some "temperature", some 1, none⟩] =
      [BufRow.mrow (some "st1") "temperature" (some 1) (some "st1")
        (some "t")] ∧
    handle ⟨some "t", some "st1", none, some 20, none, some 50, none, none⟩
        [] =
      [BufRow.flat (some "st1") (some 20) (some "st1") (some 50)
        (some "st1") (some "t")] ∧
    (insert_batch "n" [⟨none, some "bme280", some "t", none, none⟩]).2.1 =
      [⟨"unknown", none, none, "t"⟩] := by
  have h := default_sid_fallback "st1" (some "t") (some "temperature")
    (some 1) (Or.inl rfl)
    ⟨some "t", some "st1", none, some 20, none, some 50, none, none⟩
    [] "n" ⟨none, some "bme280", some "t", none, none⟩
    rfl rfl rfl rfl rfl rfl rfl
  exact ⟨by simpa using h.1, by simpa using h.2.1, by simpa using h.2.2⟩

/-- C8 counterexample: a valid-JSON message with no station id is not
dropped with a DecodeError — it is processed normally and enters the
buffer (with a null station id). -/
theorem missing_station_not_dropped_cex :
    internalOnMessage (Payload.ok cMsg8) [] =
      [BufRow.flat none (some 20) none none none (some "t")] ∧
    internalOnMessage (Payload.ok cMsg8) [] ≠ [] := by
  exact ⟨by decide, by decide⟩

/-- C8 amended: malformed JSON raises a decode error that the receiver
catches and logs, so the message is dropped without touching the buffer
and the arrival path returns normally; but a decodable message lacking
the station id is not rejected — it is buffered with a null station
id. -/
theorem malformed_dropped_missing_station_buffered :
    (∀ buffer : List BufRow,
      internalOnMessage Payload.malformed buffer = buffer) ∧
    (∀ (buffer : List BufRow) (msg : Msg), msg.station_id = none →
      msg.measurements = none →
      internalOnMessage (Payload.ok msg) buffer = buffer ++
        [BufRow.flat none msg.temperature
          (pyOrS msg.temperature_sid (pyOrS msg.sid none))
          msg.humidity
          (pyOrS msg.humidity_sid (pyOrS msg.sid none))
          msg.timestamp]) := by
  refine ⟨fun _ => rfl, fun buffer msg h1 h2 => ?_⟩
  simp [internalOnMessage, handle, h1, h2]

/-- Witness for C8 amended: a malformed payload leaves an empty buffer
empty, and the concrete station-less message is buffered. -/
theorem malformed_dropped_witness :
    internalOnMessage Payload.malformed [] = [] ∧
    internalOnMessage (Payload.ok cMsg8) [] =
      [BufRow.flat none (some 20) none none none (some "t")] := by
  have h := malformed_dropped_missing_station_buffered
  exact ⟨h.1 [], by simpa [cMsg8, pyOrS] using h.2 [] cMsg8 rfl rfl⟩

/-- strLeB decides the negation of the lexicographic strict order. -/
lemma strLeB_iff_not_lex :
    ∀ a b : List Char, strLeB a b = true ↔ ¬ List.Lex (· < ·) b a
  | [], b =>
      iff_of_true rfl (fun h => nomatch h)
  | x :: xs, [] =>
      iff_of_false (by simp [strLeB]) (fun h => h List.Lex.nil)
  | x :: xs, y :: ys => by
      rcases lt_trichotomy x y with h | h | h
      · refine iff_of_true (by simp [strLeB, h]) ?_
        intro hlex
        cases hlex with
        | rel h2 => exact lt_asymm h h2
        | cons h3 => exact absurd h (lt_irrefl _)
      · subst h
        have ih := strLeB_iff_not_lex xs ys
        rw [strLeB, if_neg (lt_irrefl x), if_neg (lt_irrefl x)]
        constructor
        · intro hle hlex
          cases hlex with
          | rel h2 => exact lt_irrefl x h2
          | cons h3 => exact ih.mp hle h3
        · intro hnlt
          exact ih.mpr (fun h3 => hnlt (List.Lex.cons h3))
      · refine iff_of_false (by simp [strLeB, asymm h, h]) ?_
        intro hn
        exact hn (List.Lex.rel h)

/-- tsLe agrees with the standard linear order on strings. -/
lemma tsLe_iff_le (a b : String) : tsLe a b = true ↔ a ≤ b := by
  rw [tsLe, strLeB_iff_not_lex]
  show ¬ List.Lex (· < ·) b.data a.data ↔ ¬ (b < a)
  exact not_congr (Iff.symm String.lt_iff_toList_lt)

/-- tsLe is total. -/
lemma tsLe_total (a b : String) : tsLe a b = true ∨ tsLe b a = true := by
  rcases le_total a b with h | h
  · exact Or.inl ((tsLe_iff_le a b).mpr h)
  · exact Or.inr ((tsLe_iff_le b a).mpr h)

/-- tsLe is transitive. -/
lemma tsLe_trans {a b c : String} (h1 : tsLe a b = true)
    (h2 : tsLe b c = true) : tsLe a c = true :=
  (tsLe_iff_le a c).mpr
    (le_trans ((tsLe_iff_le a b).mp h1) ((tsLe_iff_le b c).mp h2))

/-- Membership in an insertion step. -/
lemma mem_insertKey (k a : SKey) (l : List SKey) :
    a ∈ insertKey k l ↔ a = k ∨ a ∈ l := by
  induction l with
  | nil => simp [insertKey]
  | cons k2 rest ih =>
      by_cases h : tsLe k.2 k2.2
      · simp [insertKey, h]
      · simp [insertKey, h, ih]
        tauto

/-- Inserting into a timestamp-sorted list keeps it sorted. -/
lemma pairwise_insertKey (k : SKey) (l : List SKey)
    (hl : l.Pairwise (fun a b => tsLe a.2 b.2 = true)) :
    (insertKey k l).Pairwise (fun a b => tsLe a.2 b.2 = true) := by
  induction l with
  | nil => simp [insertKey]
  | cons k2 rest ih =>
      rcases List.pairwise_cons.mp hl with ⟨hk2, hrest⟩
      by_cases h : tsLe k.2 k2.2
      · rw [insertKey, if_pos h]
        refine List.pairwise_cons.mpr ⟨?_, hl⟩
        intro b hb
        rcases List.mem_cons.mp hb with hb | hb
        · rw [hb]; exact h
        · exact tsLe_trans h (hk2 b hb)
      · rw [insertKey, if_neg h]
        refine List.pairwise_cons.mpr ⟨?_, ih hrest⟩
        intro b hb
        rcases (mem_insertKey k b rest).mp hb with hb | hb
        · rw [hb]
          rcases tsLe_total k.2 k2.2 with h2 | h2
          · exact absurd h2 h
          · exact h2
        · exact hk2 b hb

/-- The key sort is sorted ascending by timestamp. -/
lemma sortKeys_sorted (l : List SKey) :
    (sortKeys l).Pairwise (fun a b => tsLe a.2 b.2 = true) := by
  induction l with
  | nil => simp [sortKeys]
  | cons k rest ih => exact pairwise_insertKey k (sortKeys rest) ih

/-- The key sort preserves membership. -/
lemma mem_sortKeys (a : SKey) (l : List SKey) :
    a ∈ sortKeys l ↔ a ∈ l := by
  induction l with
  | nil => simp [sortKeys]
  | cons k rest ih =>
      rw [sortKeys, mem_insertKey, ih, List.mem_cons]

/-- find? by join key returns none exactly when the series has no row at
that key. -/
lemma find_key_none_iff (l : List StoredRow) (k : SKey) :
    (l.find? (fun r => rowKey r = k)) = none ↔
      ¬ ∃ r, r ∈ l ∧ rowKey r = k := by
  rw [List.find?_eq_none]
  simp only [decide_eq_true_eq, not_exists, not_and]

/-- C7: the merged read view is the full outer join of the filtered
temperature and humidity series on (station_id, timestamp): a merged
sample exists for every row of either series, samples are ordered
ascending by timestamp, a metric is null exactly when its series has no
row at that key (value and sensor id null together); and on the concrete
example — temperature rows at (A,t1),(A,t2) and humidity rows at
(A,t1),(A,t3) — the view returns exactly the three samples t1 (both),
t2 (temperature only), t3 (humidity only), in this order. -/
theorem merged_view_full_outer_join (temps hums : List StoredRow)
    (station a b : Option String) :
    (∀ r : StoredRow,
      r ∈ temps.filter (keepRow station a b) ++
        hums.filter (keepRow station a b) →
      ∃ s, s ∈ get_readings temps hums station a b ∧
        s.station_id = r.station_id ∧ s.timestamp = r.timestamp) ∧
    (get_readings temps hums station a b).Pairwise
      (fun s1 s2 => s1.timestamp ≤ s2.timestamp) ∧
    (∀ s, s ∈ get_readings temps hums station a b →
      ((s.temperature = none ↔ s.temperature_sid = none) ∧
       (s.humidity = none ↔ s.humidity_sid = none) ∧
       (s.temperature = none ↔
         ¬ ∃ r, r ∈ temps.filter (keepRow station a b) ∧
           rowKey r = (s.station_id, s.timestamp)) ∧
       (s.humidity = none ↔
         ¬ ∃ r, r ∈ hums.filter (keepRow station a b) ∧
           rowKey r = (s.station_id, s.timestamp)))) ∧
    get_readings exTemps exHums none none none =
      [⟨"A", "t1", some 20, some "ta", some 50, some "ha"⟩,
       ⟨"A", "t2", some 21, some "tb", none, none⟩,
       ⟨"A", "t3", none, none, some 51, some "hc"⟩] := by
  refine ⟨?_, ?_, ?_, by decide⟩
  · intro r hr
    refine ⟨mergeAt (temps.filter (keepRow station a b))
      (hums.filter (keepRow station a b)) (rowKey r), ?_, rfl, rfl⟩
    unfold get_readings
    exact List.mem_map_of_mem _
      ((mem_sortKeys _ _).mpr (List.mem_dedup.mpr
        (List.mem_map_of_mem rowKey hr)))
  · unfold get_readings
    rw [List.pairwise_map]
    exact (sortKeys_sorted _).imp (fun h => (tsLe_iff_le _ _).mp h)
  · intro s hs
    unfold get_readings at hs
    rcases List.mem_map.mp hs with ⟨k, hk, hsk⟩
    subst hsk
    have hkey : ((mergeAt (temps.filter (keepRow station a b))
        (hums.filter (keepRow station a b)) k).station_id,
        (mergeAt (temps.filter (keepRow station a b))
        (hums.filter (keepRow station a b)) k).timestamp) = k := rfl
    rw [hkey]
    refine ⟨?_, ?_, ?_, ?_⟩
    · show ((temps.filter (keepRow station a b)).find?
          (fun r => rowKey r = k)).map (fun r => r.value) = none ↔
        ((temps.filter (keepRow station a b)).find?
          (fun r => rowKey r = k)).map (fun r => r.sid) = none
      cases (temps.filter (keepRow station a b)).find?
          (fun r => rowKey r = k) <;> simp
    · show ((hums.filter (keepRow station a b)).find?
          (fun r => rowKey r = k)).map (fun r => r.value) = none ↔
        ((hums.filter (keepRow station a b)).find?
          (fun r => rowKey r = k)).map (fun r => r.sid) = none
      cases (hums.filter (keepRow station a b)).find?
          (fun r => rowKey r = k) <;> simp
    · show ((temps.filter (keepRow station a b)).find?
          (fun r => rowKey r = k)).map (fun r => r.value) = none ↔ _
      rw [Option.map_eq_none']
      exact find_key_none_iff _ k
    · show ((hums.filter (keepRow station a b)).find?
          (fun r => rowKey r = k)).map (fun r => r.value) = none ↔ _
      rw [Option.map_eq_none']
      exact find_key_none_iff _ k

/-- Witness for C7: in the concrete example, the temperature row of
station A at t2 has a merged sample. -/
theorem merged_view_witness :
    ∃ s, s ∈ get_readings exTemps exHums none none none ∧
      s.station_id = "A" ∧ s.timestamp = "t2" :=
  (merged_view_full_outer_join exTemps exHums none none none).1
    ⟨"A", "tb", 21, "t2"⟩ (by decide)

end IoT
